import Mathlib

/-!
# Schichtbuch — shallow embedding and verification

A shallow embedding of the core business logic of the Schichtbuch
shift-logbook application (`src/buch/models.py`, `src/buch/views.py`,
`src/buch/forms.py`) and proofs about it.

Rows of the ORM-managed tables are modelled as Lean structures, the
database visible to one request as lists of rows, and each Django view's
POST logic as a pure function from the pre-state (plus the form data,
the acting user and the current time) to the post-state.  `CharField`
columns with `blank=True` are `String` (Django stores `""`, never
`NULL`), nullable integer columns are `Option Nat`
(`PositiveIntegerField`), timestamps are `Int` instants.
-/

namespace Schichtbuch

/-- A Django auth user, with the fields the views read:
`is_superuser`, `is_staff`, `groups` (by name), `username`, `id`. -/
structure UserT where
  id : Nat
  username : String
  is_superuser : Bool := false
  is_staff : Bool := false
  groups : List String := []
  deriving Repr, DecidableEq

/-- `buch.models.ShiftEntry` — the fields read or written by the views
under verification (status, the legacy spare-part columns, and the
SAP-processing confirmation columns).  Defaults mirror the model's
column defaults. -/
structure ShiftEntry where
  id : Nat
  status : String := "OFFEN"
  used_spare_parts : Bool := false
  spare_part_description : String := ""
  spare_part_sap_number : String := ""
  spare_part_quantity_used : Option Nat := none
  spare_part_quantity_remaining : Option Nat := none
  spare_parts_processed : Bool := false
  spare_parts_processed_by : Option Nat := none
  spare_parts_processed_at : Option Int := none
  deriving Repr, DecidableEq

/-- `buch.models.SparePart` — structured spare-part row attached to an
entry (`related_name="spare_parts"`). -/
structure SparePart where
  entry_id : Nat
  sap_number : String
  description : String := ""
  quantity_used : Nat := 0
  quantity_remaining : Nat := 0
  created_by : Option Nat := none
  deriving Repr, DecidableEq

/-- `buch.models.ShiftEntryUpdate` — append-only history row. -/
structure UpdateRow where
  entry_id : Nat
  user_id : Nat
  comment : String
  action_time : Int
  status_before : String
  status_after : String
  deriving Repr, DecidableEq

/-- The optional `Notification` model that `buch/views.py` tries
to load with `from .models import Notification`.  `buch/models.py`
defines no class of that name, so in this repository that load fails
and the views module binds `Notification = None`.  The row shape below
is what `create_mention_notifications` would write if the model
existed. -/
structure NotificationRow where
  user_id : Nat
  created_by : Nat
  entry_id : Nat
  source : String
  message : String
  deriving Repr, DecidableEq

/-- `buch.models.MentionNotification` — @-mention notification row.
`is_read` has column default `False`. -/
structure MentionNotification where
  user_id : Nat
  entry_id : Nat
  created_by : Option Nat := none
  source : String := "ENTRY"
  text_snippet : String := ""
  is_read : Bool := false
  deriving Repr, DecidableEq

/-- The database state a request against one entry sees: the entry
loaded by `get_object_or_404`, the `User` table, and the tables the
verified views touch.  `updates`, `spare_parts`, `likes`,
`mention_notifications` hold the rows of *all* entries. -/
structure DB where
  entry : ShiftEntry
  users : List UserT := []
  spare_parts : List SparePart := []
  updates : List UpdateRow := []
  notifications : List NotificationRow := []
  mention_notifications : List MentionNotification := []
  deriving Repr, DecidableEq

/-- Python `str.strip()` with no argument: remove leading and trailing
whitespace. -/
def pyStrip (s : String) : String :=
  (((s.data.dropWhile Char.isWhitespace).reverse.dropWhile
      Char.isWhitespace).reverse).asString

/-! ## Mention extraction (`views.py` lines 39–83) -/

/-- One character of the class `[\w.@+-]` from
`MENTION_REGEX = re.compile(r'@([\w.@+-]+)')` (word characters
restricted to their ASCII core, plus `.`, `@`, `+`, `-`). -/
def mentionChar (c : Char) : Bool :=
  c.isAlphanum || c = '_' || c = '.' || c = '@' || c = '+' || c = '-'

/-- Left-to-right non-overlapping scan of `MENTION_REGEX.findall`:
at each `@` take the maximal (greedy) non-empty run of `mentionChar`s
as one group match and resume after it.  `fuel` bounds the recursion;
each step consumes at least one character, so `fuel = cs.length`
suffices. -/
def scanMentions : Nat → List Char → List String
  | 0, _ => []
  | _, [] => []
  | fuel + 1, c :: rest =>
    if c = '@' then
      match rest.takeWhile mentionChar with
      | [] => scanMentions fuel rest
      | tok => tok.asString :: scanMentions fuel (rest.dropWhile mentionChar)
    else
      scanMentions fuel rest

/-- `MENTION_REGEX.findall(text)` over a Lean string. -/
def findMentions (text : String) : List String :=
  scanMentions text.data.length text.data

/-- `views.extract_mentioned_users`: empty text yields no users;
otherwise the matched tokens are collected (`set(...)`) and the `User`
table is filtered by `username__in`. -/
def extract_mentioned_users (text : String) (users : List UserT) : List UserT :=
  if text = "" then []
  else
    let usernames := findMentions text
    if usernames = [] then []
    else users.filter (fun u => usernames.contains u.username)

/-- `views.py` line 30: `from .models import Notification` inside a
try/except block.  `buch/models.py` has no `Notification` class, so
that statement raises and the except-branch sets
`Notification = None`. -/
def notification_model_exists : Bool := false

/-- `views.create_mention_notifications`: returns immediately when the
optional `Notification` model is `None` (as it is in this repository)
or when no users were mentioned; otherwise creates one `Notification`
row per mentioned user other than the sender, with the fixed message
text.  It never writes to the `MentionNotification` table. -/
def create_mention_notifications (sender : Nat) (mentioned : List UserT)
    (entry_id : Nat) (source : String) (db : DB) : DB :=
  if notification_model_exists = false then db
  else if mentioned = [] then db
  else
    { db with notifications := db.notifications ++
        mentioned.filterMap (fun u =>
          if u.id = sender then none
          else some ⟨u.id, sender, entry_id, source,
                     "Du wurdest in einem Schichtbucheintrag erwähnt."⟩) }

/-! ## Update form (`forms.ShiftEntryUpdateForm`) -/

/-- The cleaned data of `ShiftEntryUpdateForm`.  `status` is a
`ChoiceField(required=False)` (cleaned to `""` when not supplied);
the quantity fields are `IntegerField(required=False, min_value=0)`
(`none` when not supplied); the text fields are `CharField`s cleaned
to `""` when not supplied. -/
structure UpdateForm where
  comment : String
  action_time : Int
  status : String := ""
  used_spare_parts : Bool := false
  spare_part_description : String := ""
  spare_part_sap_number : String := ""
  spare_part_quantity_used : Option Nat := none
  spare_part_quantity_remaining : Option Nat := none
  deriving Repr, DecidableEq

/-- `status` must be one of the model's `STATUS_CHOICES`, or `""`
(field not required). -/
def statusChoiceOk (s : String) : Bool :=
  s = "" || s = "OFFEN" || s = "IN_ARB" || s = "ERLED"

/-- `ShiftEntryUpdateForm.is_valid()`: `comment` is a required
`CharField` (whitespace-stripped, must be non-empty), `action_time` is
required and `clean_action_time` rejects instants later than `now`,
and `status` must be a valid choice when supplied. -/
def updateFormIsValid (f : UpdateForm) (now : Int) : Bool :=
  pyStrip f.comment ≠ "" && f.action_time ≤ now && statusChoiceOk f.status

/-! ## `views.update_entry` (POST branch) -/

/-- The legacy spare-part merge of `update_entry`, `views.py` lines
486–520, applied to the entry when
`used_spare_parts and spare_sap` is truthy.  Field-by-field
translation: set the legacy used flag; trim both SAP numbers;
set the description only when one is submitted and the stored one is
empty; on a matching non-empty existing SAP number add the submitted
quantity to the stored one (`or 0` on both sides) and overwrite the
remaining stock only when submitted; otherwise store the trimmed new
SAP number and overwrite each quantity only when submitted (`is not
None`); finally reset the SAP-processing confirmation (the three
`hasattr` probes succeed — the model defines all three fields). -/
def applySpareLogic (e : ShiftEntry) (f : UpdateForm) : ShiftEntry :=
  let e := { e with used_spare_parts := true }
  let existing_sap := pyStrip e.spare_part_sap_number
  let new_sap := pyStrip f.spare_part_sap_number
  let e :=
    if f.spare_part_description ≠ "" && e.spare_part_description = "" then
      { e with spare_part_description := f.spare_part_description }
    else e
  let e :=
    if existing_sap ≠ "" && existing_sap = new_sap then
      let old_qty_used := e.spare_part_quantity_used.getD 0
      let add_qty := f.spare_part_quantity_used.getD 0
      let e := { e with spare_part_quantity_used := some (old_qty_used + add_qty) }
      match f.spare_part_quantity_remaining with
      | some r => { e with spare_part_quantity_remaining := some r }
      | none => e
    else
      let e := { e with spare_part_sap_number := new_sap }
      let e :=
        match f.spare_part_quantity_used with
        | some q => { e with spare_part_quantity_used := some q }
        | none => e
      match f.spare_part_quantity_remaining with
      | some r => { e with spare_part_quantity_remaining := some r }
      | none => e
  { e with spare_parts_processed := false,
           spare_parts_processed_by := none,
           spare_parts_processed_at := none }

/-- `views.update_entry`, POST branch, `views.py` lines 460–563.
When the form validates: remember `status_before`, compute the new
status (`form status or entry.status`), apply the legacy spare-part
merge when the used flag and a non-empty SAP number were submitted,
save the entry, append one `ShiftEntryUpdate` history row, and run the
mention scan over the comment.  When the form does not validate the
view re-renders the form and the database is untouched.  (Media-file
creation and the optional `participants` relation are omitted: the
model has no `participants` field, and no claim concerns media rows.) -/
def update_entry (db : DB) (f : UpdateForm) (userId : Nat) (now : Int) : DB :=
  if updateFormIsValid f now then
    let status_before := db.entry.status
    let new_status := if f.status = "" then db.entry.status else f.status
    let e := { db.entry with status := new_status }
    let e :=
      if f.used_spare_parts && f.spare_part_sap_number ≠ "" then
        applySpareLogic e f
      else e
    let row : UpdateRow :=
      ⟨db.entry.id, userId, f.comment, f.action_time, status_before, new_status⟩
    let db := { db with entry := e, updates := db.updates ++ [row] }
    let mentioned := extract_mentioned_users f.comment db.users
    create_mention_notifications userId mentioned db.entry.id "update" db
  else db

/-! ## Role check and `views.toggle_spare_parts_processed` -/

/-- The role predicate the views re-derive at each call site:
`user.is_superuser or user.is_staff or
user.groups.filter(name__in=["Admin", "Meister"]).exists()`. -/
def is_admin_or_meister (u : UserT) : Bool :=
  u.is_superuser || u.is_staff ||
    u.groups.any (fun g => g = "Admin" || g = "Meister")

/-- `ShiftEntry.has_any_spare_parts` (`models.py` lines 209–217):
the legacy used flag, or at least one structured `SparePart` row for
the entry. -/
def has_any_spare_parts (db : DB) : Bool :=
  db.entry.used_spare_parts ||
    db.spare_parts.any (fun sp => sp.entry_id = db.entry.id)

/-- `views.toggle_spare_parts_processed` (`views.py` lines 589–640).
Returns the post-state together with the id of the entry the response
redirects to (every path redirects to the detail view).  Non-admin
users and entries without any recorded spare parts fall through
without mutation; otherwise the flag flips, and the confirming user
and timestamp are set on switching on and cleared on switching off.
(The `hasattr` probes succeed — the model defines the fields.) -/
def toggle_spare_parts_processed (db : DB) (u : UserT) (now : Int) : DB × Nat :=
  if ¬ is_admin_or_meister u then (db, db.entry.id)
  else if ¬ has_any_spare_parts db then (db, db.entry.id)
  else
    let new_state := ! db.entry.spare_parts_processed
    let e := { db.entry with spare_parts_processed := new_state }
    let e :=
      if new_state then
        { e with spare_parts_processed_by := some u.id,
                 spare_parts_processed_at := some now }
      else
        { e with spare_parts_processed_by := none,
                 spare_parts_processed_at := none }
    ({ db with entry := e }, db.entry.id)

/-! ## `views.toggle_like` -/

/-- The `Like` table as its `(user, entry)` key pairs — `models.py`
declares `unique_together = ("entry", "user")`, so a row is determined
by its pair. -/
abbrev LikeTable := List (Nat × Nat)

/-- `views.toggle_like`: `Like.objects.get_or_create(user=..., entry=...)`
followed by `like.delete()` when the row already existed.  On the key
set: remove the pair when present, insert it otherwise. -/
def toggle_like (likes : LikeTable) (userId entryId : Nat) : LikeTable :=
  if (userId, entryId) ∈ likes then
    likes.filter (fun p => p ≠ (userId, entryId))
  else
    likes ++ [(userId, entryId)]

/-! ## `views.mention_notifications_view` -/

/-- `views.mention_notifications_view` (`views.py` lines 699–712): the
shipped view is an explicit placeholder — it runs no query and no
write, and renders `notifications = []`.  Returns the (unchanged)
database and the rendered notification list. -/
def mention_notifications_view (db : DB) (_u : UserT) :
    DB × List MentionNotification :=
  (db, [])

/-- Construction of a `MentionNotification` row: every field not
supplied takes the model's column default; in particular `is_read`
defaults to `False`. -/
def mkMentionNotification (user_id entry_id : Nat) (created_by : Option Nat)
    (source text_snippet : String) : MentionNotification :=
  { user_id := user_id, entry_id := entry_id, created_by := created_by,
    source := source, text_snippet := text_snippet }

/-! ## Page size of the dashboard (`views.home`, lines 192–201) -/

end Schichtbuch


/-! ## Helper lemmas -/

namespace Schichtbuch

/-- In this repository the optional `Notification` model is absent, so
`create_mention_notifications` is the identity on the database. -/
theorem create_mention_notifications_id (sender : Nat) (mentioned : List UserT)
    (entry_id : Nat) (source : String) (db : DB) :
    create_mention_notifications sender mentioned entry_id source db = db := by
  rfl

/-- The legacy spare-part merge never changes the entry's status. -/
theorem applySpareLogic_status (e : ShiftEntry) (f : UpdateForm) :
    (applySpareLogic e f).status = e.status := by
  simp only [applySpareLogic]
  repeat' split
  all_goals rfl

/-- The legacy spare-part merge always sets the used flag and resets
the SAP-processing confirmation fields. -/
theorem applySpareLogic_flags (e : ShiftEntry) (f : UpdateForm) :
    (applySpareLogic e f).used_spare_parts = true ∧
    (applySpareLogic e f).spare_parts_processed = false ∧
    (applySpareLogic e f).spare_parts_processed_by = none ∧
    (applySpareLogic e f).spare_parts_processed_at = none := by
  simp only [applySpareLogic]
  repeat' split
  all_goals simp

end Schichtbuch

namespace Schichtbuch

/-- The exact effect of `update_entry`'s legacy spare-part merge on the
legacy columns, phrased against the pre-state entry `e`:
the description is set from the submission only when one was submitted
and the stored one was empty (in both SAP branches); when the stored
trimmed SAP number is non-empty and equals the trimmed submitted one,
the stored SAP number is kept, the submitted quantity is added to the
stored used quantity (absent values counting as 0) and the remaining
stock is overwritten only when submitted; otherwise the trimmed
submitted SAP number is stored and each quantity is overwritten only
when submitted, kept otherwise. -/
def legacyMergeResult (e e' : ShiftEntry) (f : UpdateForm) : Prop :=
  (e'.spare_part_description =
    if f.spare_part_description ≠ "" ∧ e.spare_part_description = "" then
      f.spare_part_description
    else e.spare_part_description) ∧
  (if pyStrip e.spare_part_sap_number ≠ "" ∧
      pyStrip e.spare_part_sap_number = pyStrip f.spare_part_sap_number then
    e'.spare_part_sap_number = e.spare_part_sap_number ∧
    e'.spare_part_quantity_used =
      some (e.spare_part_quantity_used.getD 0 +
            f.spare_part_quantity_used.getD 0) ∧
    e'.spare_part_quantity_remaining =
      (match f.spare_part_quantity_remaining with
       | some r => some r
       | none => e.spare_part_quantity_remaining)
  else
    e'.spare_part_sap_number = pyStrip f.spare_part_sap_number ∧
    e'.spare_part_quantity_used =
      (match f.spare_part_quantity_used with
       | some q => some q
       | none => e.spare_part_quantity_used) ∧
    e'.spare_part_quantity_remaining =
      (match f.spare_part_quantity_remaining with
       | some r => some r
       | none => e.spare_part_quantity_remaining))

/-- The legacy merge realises `legacyMergeResult`. -/
theorem applySpareLogic_merge (e : ShiftEntry) (f : UpdateForm) :
    legacyMergeResult e (applySpareLogic e f) f := by
  cases hq : f.spare_part_quantity_used <;>
  cases hr : f.spare_part_quantity_remaining <;>
  simp only [legacyMergeResult, applySpareLogic, hq, hr, Bool.and_eq_true,
    decide_eq_true_eq] <;>
  split_ifs <;>
  simp_all

end Schichtbuch

namespace Schichtbuch

/-! ## Claim C1: structured SparePart merge in `update_entry` -/

/-- A fresh entry with no spare-part data, as in the spec's end-to-end
scenario. -/
def c1db : DB := { entry := { id := 1 } }

/-- The spec scenario's first spare-part update: used flag set,
SAP number `"12345"`, 2 used, 8 remaining. -/
def c1form : UpdateForm :=
  { comment := "Ersatzteil SAP 12345 entnommen", action_time := 0,
    used_spare_parts := true, spare_part_sap_number := "12345",
    spare_part_quantity_used := some 2,
    spare_part_quantity_remaining := some 8 }

/-- C1 (counterexample): a validated update with the used flag set and
the non-empty (trimmed) SAP number `"12345"` on an entry with no
`SparePart` rows leaves the `SparePart` table empty — no row keyed
`(entry, "12345")` is looked up or created, contrary to the claim that
the update operation creates one. -/
theorem c1_counterexample :
    updateFormIsValid c1form 0 = true ∧
    c1form.used_spare_parts = true ∧
    pyStrip c1form.spare_part_sap_number ≠ "" ∧
    ((update_entry c1db c1form 1 0).spare_parts.filter
        (fun sp => sp.entry_id = 1 && sp.sap_number = "12345")) = [] ∧
    (update_entry c1db c1form 1 0).spare_parts = [] := by
  refine ⟨by decide, by decide, by decide, by decide, by decide⟩

/-- C1 (amended): `update_entry` performs no structured spare-part
bookkeeping at all — for every database, form, user and time the
`SparePart` table after the operation equals the table before it;
spare-part submissions are merged only into the entry's legacy
columns. -/
theorem update_entry_preserves_spare_parts (db : DB) (f : UpdateForm)
    (uid : Nat) (now : Int) :
    (update_entry db f uid now).spare_parts = db.spare_parts := by
  unfold update_entry
  split <;> rfl

/-! ## Claim C2: legacy-field merge in `update_entry` -/

/-- An entry whose legacy spare-part columns already carry SAP number
`"111"` and description `"alt"`. -/
def c2db : DB :=
  { entry := { id := 1, used_spare_parts := true,
               spare_part_sap_number := "111",
               spare_part_description := "alt",
               spare_part_quantity_used := some 5,
               spare_part_quantity_remaining := some 9 } }

/-- A validated update submitting a different SAP number `"222"`
together with a new description `"neu"`. -/
def c2form : UpdateForm :=
  { comment := "Anderes Teil entnommen", action_time := 0,
    used_spare_parts := true, spare_part_sap_number := "222",
    spare_part_description := "neu",
    spare_part_quantity_used := some 1,
    spare_part_quantity_remaining := some 2 }

/-- C2 (counterexample): with a submitted SAP number (`"222"`) that
differs from the stored legacy one (`"111"`), the claim says all four
legacy spare-part fields are replaced wholesale with the submission's
values; the code does store the new SAP number and quantities, but
keeps the old description `"alt"` instead of the submitted `"neu"`,
because the description is written only when the stored one is
empty — in this branch too. -/
theorem c2_counterexample :
    updateFormIsValid c2form 0 = true ∧
    c2form.used_spare_parts = true ∧
    c2form.spare_part_sap_number ≠ "" ∧
    pyStrip c2db.entry.spare_part_sap_number ≠
      pyStrip c2form.spare_part_sap_number ∧
    c2form.spare_part_description = "neu" ∧
    (update_entry c2db c2form 1 0).entry.spare_part_sap_number = "222" ∧
    (update_entry c2db c2form 1 0).entry.spare_part_description = "alt" := by
  refine ⟨by decide, by decide, by decide, by decide, by decide, by decide,
    by decide⟩

/-- C2 (amended): for every validated update with the used flag set and
a non-empty SAP number, the legacy columns change exactly as
`legacyMergeResult` states: same non-empty trimmed SAP number — add
the submitted used quantity (missing treated as 0) and overwrite the
remaining stock only when supplied; different (or empty stored) SAP
number — store the trimmed submitted SAP number and overwrite each
quantity only when supplied, keeping it otherwise; in both branches
the description is set from the submission only when the stored one
was empty (first write wins, never wholesale replacement). -/
theorem update_entry_legacy_merge (db : DB) (f : UpdateForm)
    (uid : Nat) (now : Int)
    (hv : updateFormIsValid f now = true)
    (hu : f.used_spare_parts = true)
    (hs : f.spare_part_sap_number ≠ "") :
    legacyMergeResult db.entry (update_entry db f uid now).entry f := by
  have h := applySpareLogic_merge
    { db.entry with
        status := if f.status = "" then db.entry.status else f.status } f
  have hb : (f.used_spare_parts && decide (f.spare_part_sap_number ≠ "")) =
      true := by simp [hu, hs]
  simp only [update_entry, hv, hb, eq_self_iff_true, if_true,
    create_mention_notifications_id]
  exact h

/-- Witness for the amended C2 at the spec's own repeated-submission
example: stored SAP `"12345"` with 2 used, a second submission for
`"12345"` with 3 used and 5 remaining. -/
def c2wdb : DB :=
  { entry := { id := 1, used_spare_parts := true,
               spare_part_sap_number := "12345",
               spare_part_quantity_used := some 2,
               spare_part_quantity_remaining := some 8 } }

/-- The second submission of the spec's example. -/
def c2wform : UpdateForm :=
  { comment := "Nochmal entnommen", action_time := 0,
    used_spare_parts := true, spare_part_sap_number := "12345",
    spare_part_quantity_used := some 3,
    spare_part_quantity_remaining := some 5 }

/-- Witness: the amended C2 instantiated at `c2wdb`/`c2wform`. -/
theorem update_entry_legacy_merge_witness :
    (updateFormIsValid c2wform 0 = true ∧
     c2wform.used_spare_parts = true ∧
     c2wform.spare_part_sap_number ≠ "") ∧
    legacyMergeResult c2wdb.entry (update_entry c2wdb c2wform 1 0).entry
      c2wform :=
  ⟨⟨by decide, by decide, by decide⟩,
   update_entry_legacy_merge c2wdb c2wform 1 0 (by decide) (by decide)
     (by decide)⟩

/-! ## Claim C3: recording usage resets the processed flag -/

/-- C3: every validated update with the used flag set and a non-empty
SAP number sets the entry's `used_spare_parts` to true, resets
`spare_parts_processed` to false and clears the confirming user and
timestamp — whatever their previous values were. -/
theorem update_entry_resets_processed (db : DB) (f : UpdateForm)
    (uid : Nat) (now : Int)
    (hv : updateFormIsValid f now = true)
    (hu : f.used_spare_parts = true)
    (hs : f.spare_part_sap_number ≠ "") :
    (update_entry db f uid now).entry.used_spare_parts = true ∧
    (update_entry db f uid now).entry.spare_parts_processed = false ∧
    (update_entry db f uid now).entry.spare_parts_processed_by = none ∧
    (update_entry db f uid now).entry.spare_parts_processed_at = none := by
  have h := applySpareLogic_flags
    { db.entry with
        status := if f.status = "" then db.entry.status else f.status } f
  have hb : (f.used_spare_parts && decide (f.spare_part_sap_number ≠ "")) =
      true := by simp [hu, hs]
  simp only [update_entry, hv, hb, eq_self_iff_true, if_true,
    create_mention_notifications_id]
  exact h

/-- An entry that was already confirmed as booked in SAP
(`spare_parts_processed = true` with user and timestamp). -/
def c3db : DB :=
  { entry := { id := 2, used_spare_parts := true,
               spare_part_sap_number := "999",
               spare_parts_processed := true,
               spare_parts_processed_by := some 5,
               spare_parts_processed_at := some 100 } }

/-- A validated update recording further spare-part usage. -/
def c3form : UpdateForm :=
  { comment := "Nachtrag", action_time := 0,
    used_spare_parts := true, spare_part_sap_number := "4711",
    spare_part_quantity_used := some 1 }

/-- Witness: C3 instantiated at an entry whose processed flag was
previously true. -/
theorem update_entry_resets_processed_witness :
    (updateFormIsValid c3form 0 = true ∧
     c3form.used_spare_parts = true ∧
     c3form.spare_part_sap_number ≠ "") ∧
    ((update_entry c3db c3form 9 0).entry.used_spare_parts = true ∧
     (update_entry c3db c3form 9 0).entry.spare_parts_processed = false ∧
     (update_entry c3db c3form 9 0).entry.spare_parts_processed_by = none ∧
     (update_entry c3db c3form 9 0).entry.spare_parts_processed_at = none) :=
  ⟨⟨by decide, by decide, by decide⟩,
   update_entry_resets_processed c3db c3form 9 0 (by decide) (by decide)
     (by decide)⟩

end Schichtbuch

namespace Schichtbuch

/-! ## Claim C4: mention scanning creates MentionNotification rows -/

/-- User table for the spec's mention example: `alice` and `bob` exist,
`charlie` is the acting user, no user is named `und`. -/
def c4users : List UserT :=
  [{ id := 1, username := "alice" },
   { id := 2, username := "bob" },
   { id := 3, username := "charlie" }]

/-- Database for the mention example: entry 7 and the three users; all
notification tables are empty. -/
def c4db : DB := { entry := { id := 7 }, users := c4users }

/-- C4 (evaluation at the failing input): scanning
`"Hallo @alice und @bob, bitte prüfen"` resolves exactly the users
`alice` and `bob` (the token `und` carries no `@` and `charlie` is not
mentioned), yet running `create_mention_notifications` — as
`update_entry` does for the comment — creates no `MentionNotification`
row at all and leaves the whole database unchanged: the function
writes only to the optional `Notification` model, which does not exist
in `buch/models.py`, so the claimed two rows (and their snippets) are
never created. -/
theorem c4_no_mention_notifications_created :
    (extract_mentioned_users "Hallo @alice und @bob, bitte prüfen" c4users).map
        (fun u => u.username) = ["alice", "bob"] ∧
    (create_mention_notifications 3
        (extract_mentioned_users "Hallo @alice und @bob, bitte prüfen" c4users)
        7 "update" c4db).mention_notifications.length = 0 ∧
    create_mention_notifications 3
        (extract_mentioned_users "Hallo @alice und @bob, bitte prüfen" c4users)
        7 "update" c4db = c4db := by
  refine ⟨by decide, by decide, by decide⟩

/-! ## Claim C5: inbox batch-marks notifications read -/

/-- The user visiting the notification inbox. -/
def c5user : UserT := { id := 7, username := "anna" }

/-- A database holding one unread mention notification addressed to
that user. -/
def c5db : DB :=
  { entry := { id := 1 },
    mention_notifications :=
      [mkMentionNotification 7 1 (some 2) "UPDATE" "Hallo @anna"] }

/-- C5 (evaluation at the failing input): a `MentionNotification` is
created unread (`is_read` defaults to false), but a GET of the mention
inbox by the addressed user leaves the database — and hence the
notification's `is_read` flag — completely unchanged and renders an
empty list: the shipped `mention_notifications_view` is an explicit
placeholder that performs no query and no batch update. -/
theorem c5_inbox_marks_nothing_read :
    (mkMentionNotification 7 1 (some 2) "UPDATE" "Hallo @anna").is_read
        = false ∧
    (mention_notifications_view c5db c5user).1 = c5db ∧
    ((mention_notifications_view c5db c5user).1.mention_notifications.filter
        (fun n => n.user_id = c5user.id && !n.is_read)).length = 1 ∧
    (mention_notifications_view c5db c5user).2 = [] := by
  refine ⟨by decide, by decide, by decide, by decide⟩

/-! ## Claim C6: append-only history with correct before/after status -/

/-- C6: every validated update appends exactly one `ShiftEntryUpdate`
row to the history — the rows present before are still present,
unchanged and in order, with the one new row after them.  The new
row's `status_before` is the entry's status before the operation, its
`status_after` is the entry's status after it, and the entry's status
becomes the submitted status when one was supplied and is unchanged
otherwise. -/
theorem update_entry_appends_history (db : DB) (f : UpdateForm)
    (uid : Nat) (now : Int)
    (hv : updateFormIsValid f now = true) :
    (∃ row : UpdateRow,
        (update_entry db f uid now).updates = db.updates ++ [row] ∧
        row.status_before = db.entry.status ∧
        row.status_after = (update_entry db f uid now).entry.status) ∧
    (update_entry db f uid now).entry.status =
      (if f.status = "" then db.entry.status else f.status) := by
  have hst : ∀ e : ShiftEntry,
      (if (f.used_spare_parts && decide (f.spare_part_sap_number ≠ "")) = true
       then applySpareLogic e f else e).status = e.status := by
    intro e
    split
    · exact applySpareLogic_status e f
    · rfl
  simp only [update_entry, hv, eq_self_iff_true, if_true,
    create_mention_notifications_id]
  constructor
  · refine ⟨⟨db.entry.id, uid, f.comment, f.action_time, db.entry.status,
      if f.status = "" then db.entry.status else f.status⟩, rfl, rfl, ?_⟩
    exact (hst { db.entry with
      status := if f.status = "" then db.entry.status else f.status }).symm
  · exact hst { db.entry with
      status := if f.status = "" then db.entry.status else f.status }

/-- An entry in progress with one prior history row. -/
def c6db : DB :=
  { entry := { id := 4, status := "IN_ARB" },
    updates := [⟨4, 2, "angefangen", -10, "OFFEN", "IN_ARB"⟩] }

/-- A validated update that sets the status to done. -/
def c6form : UpdateForm :=
  { comment := "fertig", action_time := 0, status := "ERLED" }

/-- Witness: C6 instantiated at an entry with an existing history row
and a submitted status change. -/
theorem update_entry_appends_history_witness :
    updateFormIsValid c6form 0 = true ∧
    ((∃ row : UpdateRow,
        (update_entry c6db c6form 2 0).updates = c6db.updates ++ [row] ∧
        row.status_before = c6db.entry.status ∧
        row.status_after = (update_entry c6db c6form 2 0).entry.status) ∧
     (update_entry c6db c6form 2 0).entry.status =
       (if c6form.status = "" then c6db.entry.status else c6form.status)) :=
  ⟨by decide, update_entry_appends_history c6db c6form 2 0 (by decide)⟩

/-! ## Claim C7: toggling the processed flag is guarded -/

/-- C7: a request to `toggle_spare_parts_processed` by a user who is
neither superuser nor staff nor in the Admin or Meister groups, or
against an entry with no spare-part usage at all (legacy flag false
and no structured `SparePart` row), changes nothing and redirects to
the entry's detail view. -/
theorem toggle_spare_parts_processed_noop (db : DB) (u : UserT) (now : Int)
    (h : is_admin_or_meister u = false ∨ has_any_spare_parts db = false) :
    toggle_spare_parts_processed db u now = (db, db.entry.id) := by
  unfold toggle_spare_parts_processed
  rcases h with h | h
  · simp [h]
  · split
    · rfl
    · simp [h]

/-- An ordinary worker: no superuser or staff rights, no role groups. -/
def c7user : UserT := { id := 11, username := "werker" }

/-- An entry that has recorded spare-part usage. -/
def c7db : DB :=
  { entry := { id := 3, used_spare_parts := true,
               spare_part_sap_number := "555" } }

/-- Witness: C7 instantiated for a non-privileged user on an entry
with spare parts. -/
theorem toggle_spare_parts_processed_noop_witness :
    (is_admin_or_meister c7user = false ∨ has_any_spare_parts c7db = false) ∧
    toggle_spare_parts_processed c7db c7user 0 = (c7db, c7db.entry.id) :=
  ⟨Or.inl (by decide),
   toggle_spare_parts_processed_noop c7db c7user 0 (Or.inl (by decide))⟩

end Schichtbuch

namespace Schichtbuch

/-! ## Claim C8: future-dated action timestamps are rejected -/

/-- C8: an update submission whose action timestamp lies after the
current time fails form validation (`clean_action_time`), and the
operation is not performed — the whole database, including the
history rows, the entry's status and its spare-part fields, is
untouched. -/
theorem update_entry_rejects_future_action_time (db : DB) (f : UpdateForm)
    (uid : Nat) (now : Int)
    (h : now < f.action_time) :
    updateFormIsValid f now = false ∧ update_entry db f uid now = db := by
  have hv : updateFormIsValid f now = false := by
    have hlt : ¬ (f.action_time ≤ now) := by omega
    simp [updateFormIsValid, hlt]
  refine ⟨hv, ?_⟩
  simp [update_entry, hv]

/-- A future-dated submission: action time 5 at current time 0. -/
def c8form : UpdateForm :=
  { comment := "aus der Zukunft", action_time := 5,
    used_spare_parts := true, spare_part_sap_number := "777",
    spare_part_quantity_used := some 1 }

/-- A database with some existing state for the rejection witness. -/
def c8db : DB :=
  { entry := { id := 6, status := "OFFEN" },
    updates := [⟨6, 1, "alt", -1, "OFFEN", "OFFEN"⟩] }

/-- Witness: C8 instantiated at a submission dated after `now`. -/
theorem update_entry_rejects_future_action_time_witness :
    (0 : Int) < c8form.action_time ∧
    (updateFormIsValid c8form 0 = false ∧ update_entry c8db c8form 1 0 = c8db) :=
  ⟨by decide, update_entry_rejects_future_action_time c8db c8form 1 0
    (by decide)⟩

/-! ## Claim C9: likes are unique per (entry, user) and toggling is an
involution -/

/-- C9: on a `Like` table with no duplicate `(user, entry)` rows (the
state `unique_together` guarantees), toggling keeps the table
duplicate-free — a user still has at most one row per entry — and
toggling twice in succession restores the original like state: every
pair is a member of the doubly-toggled table exactly when it was a
member of the original one. -/
theorem toggle_like_unique_involutive (likes : LikeTable) (u e : Nat)
    (h : likes.Nodup) :
    (toggle_like likes u e).Nodup ∧
    ∀ p : Nat × Nat,
      p ∈ toggle_like (toggle_like likes u e) u e ↔ p ∈ likes := by
  by_cases hm : (u, e) ∈ likes
  · constructor
    · simp only [toggle_like, hm, if_pos]
      exact h.filter _
    · intro p
      have h1 : toggle_like likes u e = likes.filter (fun q => q ≠ (u, e)) := by
        simp [toggle_like, hm]
      have h2 : (u, e) ∉ likes.filter (fun q => q ≠ (u, e)) := by
        simp [List.mem_filter]
      rw [h1, toggle_like, if_neg h2, List.mem_append, List.mem_filter]
      by_cases hp : p = (u, e)
      · simp [hp, hm]
      · simp [hp]
  · constructor
    · have h2 : toggle_like likes u e = likes ++ [(u, e)] := by
        simp [toggle_like, hm]
      rw [h2, List.nodup_append]
      refine ⟨h, List.nodup_singleton _, ?_⟩
      intro q hq hq1
      simp only [List.mem_singleton] at hq1
      exact hm (hq1 ▸ hq)
    · intro p
      have h2 : toggle_like likes u e = likes ++ [(u, e)] := by
        simp [toggle_like, hm]
      have h3 : (u, e) ∈ likes ++ [(u, e)] := by simp
      rw [h2, toggle_like, if_pos h3, List.filter_append, List.mem_append]
      have h4 : likes.filter (fun q => q ≠ (u, e)) = likes :=
        List.filter_eq_self.mpr (fun q hq => by
          simp only [ne_eq, decide_eq_true_eq]
          intro hq1
          exact hm (hq1 ▸ hq))
      simp [h4]
      intro hp hc
      exact hm (hc ▸ hp)

/-- Witness: C9 instantiated at a one-row table already containing the
pair being toggled. -/
theorem toggle_like_unique_involutive_witness :
    ([((1 : Nat), (2 : Nat))].Nodup) ∧
    ((toggle_like [((1 : Nat), (2 : Nat))] 1 2).Nodup ∧
     ∀ p : Nat × Nat,
       p ∈ toggle_like (toggle_like [((1 : Nat), (2 : Nat))] 1 2) 1 2 ↔
         p ∈ [((1 : Nat), (2 : Nat))]) :=
  ⟨by decide, toggle_like_unique_involutive [((1 : Nat), (2 : Nat))] 1 2
    (by decide)⟩

/-! ## Claim C10: page-size selection on the dashboard -/

end Schichtbuch

